import Mathlib

/-!
Verification of the time-derived metrics and state-machine logic of the
CountdownToRetirement repository (src/script.js), shallowly embedded in Lean.

An `Instant` is modelled as an `Int`: milliseconds since the epoch, as produced
by JavaScript `Date` subtraction.  `Math.floor` of a real division of integers
is modelled by `Int.fdiv`; JavaScript `%` on non-negative operands coincides
with `Int.emod` (`%` on `Int` in Lean), which is what every call site below
guarantees.  Fractional quantities (the progress percentage) are modelled in
`ℚ`; where the JavaScript floating-point semantics of division by zero matters
(`calculateProgress` with a zero total span yields `±Infinity` or `NaN` before
clamping), the embedding resolves those cases explicitly and uses `none` for
`NaN`, as documented at the definition.
-/

/-- Milliseconds in one day: `1000 * 60 * 60 * 24`. -/
def oneDayMs : Int := 86400000

/-- JavaScript `Math.floor(a / b)` for integers `a`, `b` with `b > 0`. -/
def jsFloorDiv (a b : Int) : Int := a.fdiv b

/-- JavaScript `Math.ceil(a / b)` for integers `a`, `b` with `b > 0`. -/
def jsCeilDiv (a b : Int) : Int := -((-a).fdiv b)

/-- The `setHours(0, 0, 0, 0)` truncation of an instant to its midnight
(script.js lines 153-157): the start of the day containing `t`.  Days are
uniform `oneDayMs` blocks (no daylight-saving shifts are modelled). -/
def dayFloor (t : Int) : Int := t.fdiv oneDayMs * oneDayMs

/-- JavaScript `Date.prototype.getDay`: the ECMAScript week-day of the day
containing `t`, with day 0 of the epoch (1970-01-01) being a Thursday (= 4).
Sunday is 0 and Saturday is 6. -/
def getDay (t : Int) : Int := (t.fdiv oneDayMs + 4) % 7

/-- The `EMPLOYMENT_START_DATE` constant (script.js line 5),
`2018-10-01T00:00:00` as epoch milliseconds. -/
def EMPLOYMENT_START_DATE : Int := 1538352000000

/-- Output of the Duration Engine part of `updateCountdown`
(script.js lines 93-119): the displayed day/hour/minute/second remainders and
the alternate total views. -/
structure CountdownSnapshot where
  days : Int
  hours : Int
  minutes : Int
  seconds : Int
  totalHours : Int
  totalWeeks : Int
  totalMonths : Int
  isReached : Bool
  deriving DecidableEq, Repr

/-- The Duration Engine: the pure computation of `updateCountdown`
(script.js lines 93-119).  `diff <= 0` switches to the terminal state
(`celebrateRetirement`), rendered here as `isReached = true` with all numeric
fields 0; otherwise the time units are floored cascades of `diff`.
`months = Math.floor(days / 30.44)` is modelled exactly with the rational
3044/100 via `days * 100` before the floor division. -/
def computeCountdown (now target : Int) : CountdownSnapshot :=
  let diff := target - now
  if diff ≤ 0 then
    { days := 0, hours := 0, minutes := 0, seconds := 0
      totalHours := 0, totalWeeks := 0, totalMonths := 0, isReached := true }
  else
    let seconds := jsFloorDiv diff 1000
    let minutes := jsFloorDiv seconds 60
    let hours := jsFloorDiv minutes 60
    let days := jsFloorDiv hours 24
    let weeks := jsFloorDiv days 7
    let months := jsFloorDiv (days * 100) 3044
    { days := days, hours := hours % 24, minutes := minutes % 60
      seconds := seconds % 60, totalHours := hours, totalWeeks := weeks
      totalMonths := months, isReached := false }

/-- For a non-negative divisor, the floor division of `Math.floor` agrees with
Euclidean division. -/
theorem jsFloorDiv_eq_ediv (a b : Int) (hb : 0 ≤ b) : jsFloorDiv a b = a / b :=
  Int.fdiv_eq_ediv a hb

/-- Claim C1: for `now < target` the snapshot has `isReached = false` and
`days*86400 + hours*3600 + minutes*60 + seconds` reconstructs exactly
`floor((target-now)/1000)` (so it is ≤ that floor and the floor is < it + 1),
with `hours`, `minutes`, `seconds` the remainders `% 24`, `% 60`, `% 60` of the
total hour/minute/second counts; for `target ≤ now`, `isReached = true` and all
numeric fields are 0. -/
theorem computeCountdown_spec (now target : Int) :
    (now < target →
      (computeCountdown now target).isReached = false ∧
      (computeCountdown now target).days * 86400 +
        (computeCountdown now target).hours * 3600 +
        (computeCountdown now target).minutes * 60 +
        (computeCountdown now target).seconds =
          jsFloorDiv (target - now) 1000 ∧
      (computeCountdown now target).hours =
        (computeCountdown now target).totalHours % 24 ∧
      (computeCountdown now target).minutes =
        jsFloorDiv (jsFloorDiv (target - now) 1000) 60 % 60 ∧
      (computeCountdown now target).seconds =
        jsFloorDiv (target - now) 1000 % 60) ∧
    (target ≤ now →
      computeCountdown now target =
        { days := 0, hours := 0, minutes := 0, seconds := 0, totalHours := 0
          totalWeeks := 0, totalMonths := 0, isReached := true }) := by
  constructor
  · intro h
    have hdiff : ¬ target - now ≤ 0 := by omega
    refine ⟨?_, ?_, ?_, ?_, ?_⟩
    all_goals
      simp only [computeCountdown, hdiff, if_false,
        jsFloorDiv_eq_ediv _ 1000 (by norm_num), jsFloorDiv_eq_ediv _ 60 (by norm_num),
        jsFloorDiv_eq_ediv _ 24 (by norm_num)]
    all_goals first | rfl | omega
  · intro h
    have hdiff : target - now ≤ 0 := by omega
    simp [computeCountdown, hdiff]

/-- Witness for C1: `computeCountdown` at `now = 0`, `target = 90061500` ms
(1 day, 1 hour, 1 minute, 1.5 seconds): not reached, and the displayed units
reconstruct the floored total seconds 90061. -/
theorem computeCountdown_spec_witness :
    (computeCountdown 0 90061500).isReached = false ∧
    (computeCountdown 0 90061500).days * 86400 +
      (computeCountdown 0 90061500).hours * 3600 +
      (computeCountdown 0 90061500).minutes * 60 +
      (computeCountdown 0 90061500).seconds =
        jsFloorDiv (90061500 - 0) 1000 ∧
    (computeCountdown 0 90061500).hours =
      (computeCountdown 0 90061500).totalHours % 24 ∧
    (computeCountdown 0 90061500).minutes =
      jsFloorDiv (jsFloorDiv (90061500 - 0) 1000) 60 % 60 ∧
    (computeCountdown 0 90061500).seconds =
      jsFloorDiv (90061500 - 0) 1000 % 60 :=
  (computeCountdown_spec 0 90061500).1 (by norm_num)

/-- The three milestone states of script.js lines 318-330. -/
inductive MilestoneState where
  | achieved
  | active
  | locked
  deriving DecidableEq, Repr

/-- A milestone record from the `allMilestones` list (script.js lines 299-308);
the presentation-only `icon` and `emoji` fields are omitted. -/
structure Milestone where
  threshold : Int
  text : String
  deriving DecidableEq, Repr

/-- The state branch of `updateMilestones` (script.js lines 318-330): achieved
when `days <= threshold`, active when `days <= threshold + 30 && days >
threshold`, otherwise locked. -/
def milestoneState (days threshold : Int) : MilestoneState :=
  if days ≤ threshold then .achieved
  else if days ≤ threshold + 30 ∧ days > threshold then .active
  else .locked

/-- The static milestone list of script.js lines 299-308, in source order. -/
def allMilestones : List Milestone :=
  [ { threshold := 730, text := "2 Years to Go" },
    { threshold := 365, text := "One Year Left" },
    { threshold := 180, text := "6 Months Away" },
    { threshold := 100, text := "Double Digits" },
    { threshold := 50, text := "50 Days Left" },
    { threshold := 30, text := "One Month" },
    { threshold := 7, text := "Final Week" },
    { threshold := 1, text := "LAST DAY!" } ]

/-- The evaluation of `updateMilestones` (script.js lines 294-368): one derived
state per milestone of `allMilestones`, in the list's order. -/
def updateMilestones (days : Int) : List (Milestone × MilestoneState) :=
  allMilestones.map fun m => (m, milestoneState days m.threshold)

/-- Claim C5: a milestone with threshold `T` is achieved iff
`daysRemaining ≤ T`, active iff `T < daysRemaining ≤ T + 30`, and locked iff
`daysRemaining > T + 30`; `updateMilestones` yields one entry per input
milestone with input order preserved; for `T = 100`, days 100 is achieved,
110 and 130 are active, and 131 is locked. -/
theorem milestoneState_spec (T days : Int) :
    (milestoneState days T = .achieved ↔ days ≤ T) ∧
    (milestoneState days T = .active ↔ T < days ∧ days ≤ T + 30) ∧
    (milestoneState days T = .locked ↔ T + 30 < days) ∧
    (updateMilestones days).map Prod.fst = allMilestones ∧
    milestoneState 100 100 = .achieved ∧
    milestoneState 110 100 = .active ∧
    milestoneState 130 100 = .active ∧
    milestoneState 131 100 = .locked := by
  refine ⟨?_, ?_, ?_, ?_, by decide, by decide, by decide, by decide⟩
  · unfold milestoneState
    split_ifs <;> simp <;> omega
  · unfold milestoneState
    split_ifs <;> simp <;> omega
  · unfold milestoneState
    split_ifs <;> simp <;> omega
  · rfl

/-- Rank of a milestone state along the lifecycle order
locked < active < achieved. -/
def stateRank : MilestoneState → Nat
  | .locked => 0
  | .active => 1
  | .achieved => 2

/-- Claim C10: for a fixed threshold, the derived state is monotone along
locked < active < achieved as days-remaining decreases: at `d' ≤ d` the state
is at least as advanced as at `d`, so a milestone never transitions backward
as the countdown progresses. -/
theorem milestoneState_monotone (T d d' : Int) (h : d' ≤ d) :
    stateRank (milestoneState d T) ≤ stateRank (milestoneState d' T) := by
  unfold milestoneState
  split_ifs <;> simp [stateRank] <;> omega

/-- Witness for C10: at threshold 100, moving from 131 days remaining down to
110 days advances the state (locked to active), never backward. -/
theorem milestoneState_monotone_witness :
    stateRank (milestoneState 131 100) ≤ stateRank (milestoneState 110 100) :=
  milestoneState_monotone 100 131 110 (by norm_num)

/-- Rejection reasons of the Target Date Validator (the early-return branches
of the update-date click handler, script.js lines 45-90). -/
inductive RejectionReason where
  | EMPTY_INPUT
  | UNPARSEABLE
  | NOT_FUTURE
  | TOO_FAR_FUTURE
  deriving DecidableEq, Repr

/-- A candidate input to the update-date click handler, modelled through the
two observations the handler makes of the raw string: whether it is empty
(`!newDateValue`), and which instant `new Date(newDateValue)` parses it to
(`none` when `getTime()` is `NaN`).  The string parser itself is the host
platform's and is not re-modelled. -/
structure Candidate where
  isEmpty : Bool
  parsed : Option Int
  deriving DecidableEq, Repr

/-- The validation chain of the update-date click handler (script.js lines
45-90), first failure wins.  `maxDate` is the instant denoted by
`new Date()` advanced 50 calendar years via `setFullYear` (lines 70-71);
calendar-year arithmetic is not re-modelled, the handler receives the
resulting instant. -/
def validate (c : Candidate) (now maxDate : Int) : Except RejectionReason Int :=
  if c.isEmpty then .error .EMPTY_INPUT
  else
    match c.parsed with
    | none => .error .UNPARSEABLE
    | some newDate =>
      if newDate ≤ now then .error .NOT_FUTURE
      else if newDate > maxDate then .error .TOO_FAR_FUTURE
      else .ok newDate

/-- Claim C6: the validator checks its rules in order with the first failure
winning: empty input is rejected as EMPTY_INPUT; an unparseable candidate as
UNPARSEABLE; a parsed candidate at or before `now` as NOT_FUTURE; one beyond
`maxDate` (now + 50 years) as TOO_FAR_FUTURE; otherwise the candidate is
accepted and the value returned is the parsed instant itself. -/
theorem validate_spec (c : Candidate) (now maxDate : Int) :
    (c.isEmpty = true → validate c now maxDate = .error .EMPTY_INPUT) ∧
    (c.isEmpty = false → c.parsed = none →
      validate c now maxDate = .error .UNPARSEABLE) ∧
    (∀ d, c.isEmpty = false → c.parsed = some d → d ≤ now →
      validate c now maxDate = .error .NOT_FUTURE) ∧
    (∀ d, c.isEmpty = false → c.parsed = some d → now < d → maxDate < d →
      validate c now maxDate = .error .TOO_FAR_FUTURE) ∧
    (∀ d, c.isEmpty = false → c.parsed = some d → now < d → d ≤ maxDate →
      validate c now maxDate = .ok d) := by
  refine ⟨?_, ?_, ?_, ?_, ?_⟩
  · intro he
    simp [validate, he]
  · intro he hp
    simp [validate, he, hp]
  · intro d he hp hd
    simp [validate, he, hp, hd]
  · intro d he hp hd hmax
    have h1 : ¬ d ≤ now := by omega
    simp [validate, he, hp, h1, hmax]
  · intro d he hp hd hmax
    have h1 : ¬ d ≤ now := by omega
    have h2 : ¬ d > maxDate := by omega
    simp [validate, he, hp, h1, h2]

/-- Witness for C6: the candidate parsing to instant 5 with `now = 0` and
`maxDate = 10` is accepted with value 5. -/
theorem validate_spec_witness :
    validate { isEmpty := false, parsed := some 5 } 0 10 = .ok 5 :=
  (validate_spec { isEmpty := false, parsed := some 5 } 0 10).2.2.2.2 5
    rfl rfl (by norm_num) (by norm_num)

/-- The full update-date click handler (script.js lines 45-90) as a state
transition on the `retirementDate` variable: every early return leaves the
stored date untouched and reports the rejection; the accept path assigns the
parsed `newDate` (line 77).  The notification, confetti, and localStorage side
effects carry no countdown state. -/
def updateDateHandler (c : Candidate) (now maxDate retirementDate : Int) :
    Int × Option RejectionReason :=
  if c.isEmpty then (retirementDate, some .EMPTY_INPUT)
  else
    match c.parsed with
    | none => (retirementDate, some .UNPARSEABLE)
    | some newDate =>
      if newDate ≤ now then (retirementDate, some .NOT_FUTURE)
      else if newDate > maxDate then (retirementDate, some .TOO_FAR_FUTURE)
      else (newDate, none)

/-- Claim C7: the current target date is mutated only through the validator's
accept path and the replacement is atomic: whenever `validate` rejects, the
handler leaves the stored date unchanged (and reports the same reason);
whenever `validate` accepts with value `d`, the new stored date equals `d`
wholly, regardless of the old value. -/
theorem updateDateHandler_atomic (c : Candidate) (now maxDate old : Int) :
    (∀ r, validate c now maxDate = .error r →
      updateDateHandler c now maxDate old = (old, some r)) ∧
    (∀ d, validate c now maxDate = .ok d →
      updateDateHandler c now maxDate old = (d, none)) := by
  obtain ⟨e, p⟩ := c
  constructor
  · intro r
    cases e <;> rcases p with _ | v <;>
      simp only [validate, updateDateHandler] <;>
      split_ifs <;> simp_all
  · intro d
    cases e <;> rcases p with _ | v <;>
      simp only [validate, updateDateHandler] <;>
      split_ifs <;> simp_all

/-- Witness for C7: a rejected candidate (not in the future) leaves the stored
date 999 unchanged, and an accepted candidate replaces it with the parsed
value 5. -/
theorem updateDateHandler_atomic_witness :
    updateDateHandler { isEmpty := false, parsed := some 0 } 0 10 999 =
      (999, some .NOT_FUTURE) ∧
    updateDateHandler { isEmpty := false, parsed := some 5 } 0 10 999 =
      (5, none) :=
  ⟨(updateDateHandler_atomic { isEmpty := false, parsed := some 0 } 0 10 999).1
      .NOT_FUTURE rfl,
   (updateDateHandler_atomic { isEmpty := false, parsed := some 5 } 0 10 999).2
      5 rfl⟩

/-- The progress percentage of `calculateProgress` (script.js lines 144-149),
with the fixed `EMPLOYMENT_START_DATE` anchor generalised to a parameter:
`Math.max(0, Math.min(100, (elapsed / totalTime) * 100))`.  The in-range
computation is carried out exactly in `ℚ`.  JavaScript number division by a
zero `totalTime` yields `Infinity`, `-Infinity` or (for `0/0`) `NaN`; the two
clamps send the infinities to `100` and `0` and propagate `NaN`, so the zero
branch below resolves them accordingly, with `none` standing for `NaN`. -/
def progressPct (anchor now retirement : Int) : Option ℚ :=
  let totalTime := retirement - anchor
  let elapsed := now - anchor
  if totalTime = 0 then
    if elapsed = 0 then none
    else if 0 < elapsed then some 100
    else some 0
  else some (max 0 (min 100 ((elapsed : ℚ) / (totalTime : ℚ) * 100)))

/-- The source's `calculateProgress(now, retirement)` (script.js lines
144-149): `progressPct` anchored at `EMPLOYMENT_START_DATE`. -/
def calculateProgress (now retirement : Int) : Option ℚ :=
  progressPct EMPLOYMENT_START_DATE now retirement

/-- Counterexample to claim C3: `calculateProgress` has no divide-by-zero
guard.  With the target 1 s before the anchor (total span `-1000 ≤ 0`) and
`now` 1 s after the anchor, the clamped ratio is 0, not the claimed 100. -/
theorem calculateProgress_degenerate_not_100 :
    (EMPLOYMENT_START_DATE - 1000) - EMPLOYMENT_START_DATE ≤ 0 ∧
    calculateProgress (EMPLOYMENT_START_DATE + 1000) (EMPLOYMENT_START_DATE - 1000) ≠
      some 100 ∧
    calculateProgress (EMPLOYMENT_START_DATE + 1000) (EMPLOYMENT_START_DATE - 1000) =
      some 0 := by
  refine ⟨by norm_num, ?_, ?_⟩ <;>
    norm_num [calculateProgress, progressPct, EMPLOYMENT_START_DATE]

/-- Claim C3 as amended: the code contains no degenerate-case guard; the
clamps alone determine the outcome.  For `totalSpan = target - anchor < 0`
with `now` at or after the anchor the percentage is 0 (not 100); for
`totalSpan = 0` the IEEE division produces `±Infinity` or `NaN`, which the
clamps turn into 100 when `now > anchor`, 0 when `now < anchor`, and `NaN`
(modelled `none`) when `now = anchor`. -/
theorem progressPct_degenerate (anchor target now : Int) :
    (target - anchor < 0 → anchor ≤ now → progressPct anchor now target = some 0) ∧
    (target - anchor = 0 →
      progressPct anchor now target =
        if anchor < now then some 100
        else if now < anchor then some 0
        else none) := by
  constructor
  · intro ht hn
    have hne : ¬ (target - anchor = 0) := by omega
    simp only [progressPct, if_neg hne]
    have htQ : ((target - anchor : Int) : ℚ) < 0 := by exact_mod_cast ht
    have heQ : (0 : ℚ) ≤ ((now - anchor : Int) : ℚ) := by
      exact_mod_cast (by omega : (0 : Int) ≤ now - anchor)
    have hdiv : ((now - anchor : Int) : ℚ) / ((target - anchor : Int) : ℚ) ≤ 0 :=
      div_nonpos_iff.mpr (Or.inl ⟨heQ, le_of_lt htQ⟩)
    have hx : ((now - anchor : Int) : ℚ) / ((target - anchor : Int) : ℚ) * 100 ≤ 0 := by
      nlinarith
    rw [min_eq_right (hx.trans (by norm_num)), max_eq_left hx]
  · intro ht
    rcases lt_trichotomy now anchor with h | h | h
    · simp only [progressPct, if_pos ht, if_neg (by omega : ¬ (now - anchor = 0)),
        if_neg (by omega : ¬ (0 : Int) < now - anchor)]
      rw [if_neg (by omega), if_pos h]
    · simp only [progressPct, if_pos ht, if_pos (by omega : now - anchor = 0)]
      rw [if_neg (by omega), if_neg (by omega)]
    · simp only [progressPct, if_pos ht, if_neg (by omega : ¬ (now - anchor = 0)),
        if_pos (by omega : (0 : Int) < now - anchor)]
      rw [if_pos (by omega)]

/-- Witness for the amended C3: anchor 0, target -5000 (span -5000 < 0), now
3000 after the anchor: the percentage is 0; and with target equal to the
anchor and now after it, the clamped infinity gives 100. -/
theorem progressPct_degenerate_witness :
    progressPct 0 3000 (-5000) = some 0 ∧
    progressPct 0 3000 0 = if (0:Int) < 3000 then some 100
      else if (3000:Int) < 0 then some 0 else none :=
  ⟨(progressPct_degenerate 0 (-5000) 3000).1 (by norm_num) (by norm_num),
   (progressPct_degenerate 0 0 3000).2 (by norm_num)⟩

/-- Claim C8: for a fixed `anchor < target`, the percentage is monotonically
non-decreasing as `now` advances, always clamped to `[0, 100]`, equal to 0 at
`now = anchor` and to 100 at `now = target`. -/
theorem progressPct_monotone (anchor target : Int) (h : anchor < target) :
    (∀ n₁ n₂ : Int, ∀ q₁ q₂ : ℚ, n₁ ≤ n₂ →
      progressPct anchor n₁ target = some q₁ →
      progressPct anchor n₂ target = some q₂ → q₁ ≤ q₂) ∧
    (∀ n : Int, ∀ q : ℚ, progressPct anchor n target = some q →
      0 ≤ q ∧ q ≤ 100) ∧
    progressPct anchor anchor target = some 0 ∧
    progressPct anchor target target = some 100 := by
  have hne : ¬ (target - anchor = 0) := by omega
  have htQ : (0 : ℚ) < ((target - anchor : Int) : ℚ) := by
    exact_mod_cast (by omega : (0 : Int) < target - anchor)
  refine ⟨?_, ?_, ?_, ?_⟩
  · intro n₁ n₂ q₁ q₂ hn h1 h2
    simp only [progressPct, if_neg hne, Option.some_inj] at h1 h2
    subst h1; subst h2
    have hc : ((n₁ - anchor : Int) : ℚ) ≤ ((n₂ - anchor : Int) : ℚ) := by
      exact_mod_cast (by omega : (n₁ - anchor : Int) ≤ n₂ - anchor)
    have hdiv := (div_le_div_iff_of_pos_right htQ).mpr hc
    have hmul := mul_le_mul_of_nonneg_right hdiv (by norm_num : (0:ℚ) ≤ 100)
    exact max_le_max (le_refl 0) (min_le_min (le_refl 100) hmul)
  · intro n q hq
    simp only [progressPct, if_neg hne, Option.some_inj] at hq
    subst hq
    exact ⟨le_max_left _ _, max_le (by norm_num) (min_le_left _ _)⟩
  · simp only [progressPct, if_neg hne, sub_self, Int.cast_zero, zero_div,
      zero_mul]
    norm_num
  · simp only [progressPct, if_neg hne, div_self htQ.ne', one_mul]
    norm_num

/-- Witness for C8: with anchor 0 and target 200, the percentage is 25 at
`now = 50` and 75 at `now = 150` (monotone), and the endpoints give 0 and
100. -/
theorem progressPct_monotone_witness :
    (progressPct 0 0 200 = some 0 ∧ progressPct 0 200 200 = some 100) ∧
    (∀ q : ℚ, progressPct 0 100 200 = some q → 0 ≤ q ∧ q ≤ 100) :=
  ⟨⟨(progressPct_monotone 0 200 (by norm_num)).2.2.1,
    (progressPct_monotone 0 200 (by norm_num)).2.2.2⟩,
   fun q => (progressPct_monotone 0 200 (by norm_num)).2.1 100 q⟩

/-- The progress-band selection of `updateProgress` (script.js lines 224-235):
first-match-wins strict comparisons on the percentage, each band rendered by
its description string ("early" = "The journey has begun!", "steady" =
"Making steady progress!", "past-midpoint" = "More than halfway there!",
"near" = "The finish line is in sight!", "final" = "Almost there! So
close!"). -/
def progressDescription (percentage : ℚ) : String :=
  if percentage < 25 then "The journey has begun!"
  else if percentage < 50 then "Making steady progress!"
  else if percentage < 75 then "More than halfway there!"
  else if percentage < 90 then "The finish line is in sight!"
  else "Almost there! So close!"

/-- Claim C9: band selection is by first-match-wins strict comparisons
(`< 25` early, `< 50` steady, `< 75` past-midpoint, `< 90` near, else final),
so the boundary percentages 24.9, 25, 49.9, 50, 74.9, 75, 89.9, 90 map to
early, steady, steady, past-midpoint, past-midpoint, near, near, final. -/
theorem progressDescription_spec :
    (∀ p : ℚ, p < 25 → progressDescription p = "The journey has begun!") ∧
    (∀ p : ℚ, 25 ≤ p → p < 50 → progressDescription p = "Making steady progress!") ∧
    (∀ p : ℚ, 50 ≤ p → p < 75 → progressDescription p = "More than halfway there!") ∧
    (∀ p : ℚ, 75 ≤ p → p < 90 → progressDescription p = "The finish line is in sight!") ∧
    (∀ p : ℚ, 90 ≤ p → progressDescription p = "Almost there! So close!") ∧
    progressDescription 24.9 = "The journey has begun!" ∧
    progressDescription 25 = "Making steady progress!" ∧
    progressDescription 49.9 = "Making steady progress!" ∧
    progressDescription 50 = "More than halfway there!" ∧
    progressDescription 74.9 = "More than halfway there!" ∧
    progressDescription 75 = "The finish line is in sight!" ∧
    progressDescription 89.9 = "The finish line is in sight!" ∧
    progressDescription 90 = "Almost there! So close!" := by
  refine ⟨?_, ?_, ?_, ?_, ?_, ?_, ?_, ?_, ?_, ?_, ?_, ?_, ?_⟩
  · intro p h1
    rw [progressDescription, if_pos h1]
  · intro p h1 h2
    rw [progressDescription, if_neg (not_lt.mpr h1), if_pos h2]
  · intro p h1 h2
    rw [progressDescription, if_neg (by linarith), if_neg (not_lt.mpr h1),
      if_pos h2]
  · intro p h1 h2
    rw [progressDescription, if_neg (by linarith), if_neg (by linarith),
      if_neg (not_lt.mpr h1), if_pos h2]
  · intro p h1
    rw [progressDescription, if_neg (by linarith), if_neg (by linarith),
      if_neg (by linarith), if_neg (not_lt.mpr h1)]
  all_goals norm_num [progressDescription]

/-- Witness for C9: a percentage of 10 is in the early band and one of 97 is
in the final band. -/
theorem progressDescription_spec_witness :
    progressDescription 10 = "The journey has begun!" ∧
    progressDescription 97 = "Almost there! So close!" :=
  ⟨progressDescription_spec.1 10 (by norm_num),
   progressDescription_spec.2.2.2.2.1 97 (by norm_num)⟩

/-- The four day-classification counters of `updateFunMetrics`
(script.js lines 178-181). -/
@[ext]
structure DayCounts where
  weekends : Int
  workDays : Int
  mondays : Int
  fridays : Int
  deriving DecidableEq, Repr

/-- Component-wise sum of two counter records. -/
def DayCounts.add (a b : DayCounts) : DayCounts :=
  ⟨a.weekends + b.weekends, a.workDays + b.workDays,
   a.mondays + b.mondays, a.fridays + b.fridays⟩

/-- One iteration of the remaining-days loop of `updateFunMetrics`
(script.js lines 185-194): Saturday bumps `weekends`, Sunday is skipped, any
other day bumps `workDays` and, when it is a Monday or Friday, the named
counter. -/
def countStep (dayOfWeek : Int) (c : DayCounts) : DayCounts :=
  if dayOfWeek = 0 ∨ dayOfWeek = 6 then
    if dayOfWeek = 6 then { c with weekends := c.weekends + 1 } else c
  else
    { c with workDays := c.workDays + 1,
             mondays := if dayOfWeek = 1 then c.mondays + 1 else c.mondays,
             fridays := if dayOfWeek = 5 then c.fridays + 1 else c.fridays }

/-- The remaining-days loop of `updateFunMetrics` (script.js lines 185-194):
`n` iterations of `countStep` starting from `init`, day `i` classified as
`(startDayOfWeek + i) % 7` (a non-negative JavaScript `%`, hence `emod`). -/
def walkFrom (startDayOfWeek : Int) (init : DayCounts) : Nat → DayCounts
  | 0 => init
  | n + 1 => countStep ((startDayOfWeek + (n : Int)) % 7) (walkFrom startDayOfWeek init n)

/-- The closed-form counting of `updateFunMetrics` (script.js lines 174-194):
`fullWeeks = Math.floor(totalDays / 7)` full weeks contribute one Saturday,
five work days, one Monday and one Friday each, and the `totalDays % 7`
remaining days are walked one by one.  At the call site `totalDays > 0`, so
the JavaScript `%` agrees with `emod`. -/
def calendarCounts (startDayOfWeek totalDays : Int) : DayCounts :=
  let fullWeeks := jsFloorDiv totalDays 7
  let remainingDays := totalDays % 7
  walkFrom startDayOfWeek ⟨fullWeeks, fullWeeks * 5, fullWeeks, fullWeeks⟩
    remainingDays.toNat

/-- Modelled from the spec: the per-day classification of the reference
implementation ("count of Saturdays (weekend markers), count of week-days,
count of Mondays, count of Fridays"): a Saturday (6) is a weekend marker, a
Monday (1) through Friday (5) is a work day, and Mondays and Fridays are also
counted by name. -/
def refClassify (dayOfWeek : Int) (c : DayCounts) : DayCounts where
  weekends := if dayOfWeek = 6 then c.weekends + 1 else c.weekends
  workDays := if 1 ≤ dayOfWeek ∧ dayOfWeek ≤ 5 then c.workDays + 1 else c.workDays
  mondays := if dayOfWeek = 1 then c.mondays + 1 else c.mondays
  fridays := if dayOfWeek = 5 then c.fridays + 1 else c.fridays

/-- Modelled from the spec: the reference implementation that iterates over
every one of the `totalDays` days of the range, classifying day `i` by its
day-of-week `(startDayOfWeek + i) % 7`. -/
def refWalkAll (startDayOfWeek : Int) : Nat → DayCounts
  | 0 => ⟨0, 0, 0, 0⟩
  | n + 1 => refClassify ((startDayOfWeek + (n : Int)) % 7) (refWalkAll startDayOfWeek n)

/-- For a day-of-week in `[0, 7)` the source's loop body and the reference
classification agree. -/
theorem countStep_eq_refClassify (dow : Int) (h0 : 0 ≤ dow) (h7 : dow < 7)
    (c : DayCounts) : countStep dow c = refClassify dow c := by
  interval_cases dow <;> ext <;> norm_num [countStep, refClassify]

/-- The reference classification commutes with shifting the accumulator. -/
theorem refClassify_add (dow : Int) (a b : DayCounts) :
    refClassify dow (a.add b) = a.add (refClassify dow b) := by
  ext <;> simp [refClassify, DayCounts.add] <;> split_ifs <;> ring

/-- The source's remaining-days walk from an initial accumulator is the
reference walk shifted by that accumulator. -/
theorem walkFrom_eq (s : Int) (init : DayCounts) (n : Nat) :
    walkFrom s init n = init.add (refWalkAll s n) := by
  induction n with
  | zero => ext <;> simp [walkFrom, refWalkAll, DayCounts.add]
  | succ m ih =>
    simp only [walkFrom, refWalkAll, ih]
    rw [countStep_eq_refClassify _ (Int.emod_nonneg _ (by norm_num))
      (Int.emod_lt_of_pos _ (by norm_num)), refClassify_add]

/-- Seven consecutive days cover each day-of-week exactly once, contributing
one Saturday, five work days, one Monday and one Friday. -/
theorem refClassify_seven (s : Int) (n : Nat) (c : DayCounts) :
    refClassify ((s + ((n+6 : Nat) : Int)) % 7) (refClassify ((s + ((n+5 : Nat) : Int)) % 7)
      (refClassify ((s + ((n+4 : Nat) : Int)) % 7) (refClassify ((s + ((n+3 : Nat) : Int)) % 7)
        (refClassify ((s + ((n+2 : Nat) : Int)) % 7) (refClassify ((s + ((n+1 : Nat) : Int)) % 7)
          (refClassify ((s + (n : Int)) % 7) c)))))) = c.add ⟨1, 5, 1, 1⟩ := by
  have hd0 : 0 ≤ (s + (n : Int)) % 7 := Int.emod_nonneg _ (by norm_num)
  have hd7 : (s + (n : Int)) % 7 < 7 := Int.emod_lt_of_pos _ (by norm_num)
  have e1 : (s + ((n+1 : Nat) : Int)) % 7 = ((s + (n : Int)) % 7 + 1) % 7 := by
    push_cast; omega
  have e2 : (s + ((n+2 : Nat) : Int)) % 7 = ((s + (n : Int)) % 7 + 2) % 7 := by
    push_cast; omega
  have e3 : (s + ((n+3 : Nat) : Int)) % 7 = ((s + (n : Int)) % 7 + 3) % 7 := by
    push_cast; omega
  have e4 : (s + ((n+4 : Nat) : Int)) % 7 = ((s + (n : Int)) % 7 + 4) % 7 := by
    push_cast; omega
  have e5 : (s + ((n+5 : Nat) : Int)) % 7 = ((s + (n : Int)) % 7 + 5) % 7 := by
    push_cast; omega
  have e6 : (s + ((n+6 : Nat) : Int)) % 7 = ((s + (n : Int)) % 7 + 6) % 7 := by
    push_cast; omega
  rw [e1, e2, e3, e4, e5, e6]
  set d := (s + (n : Int)) % 7 with hd
  interval_cases d <;> ext <;> norm_num [refClassify, DayCounts.add] <;> omega

/-- Extending the reference walk by a full week adds exactly one Saturday,
five work days, one Monday and one Friday. -/
theorem refWalkAll_add_seven (s : Int) (n : Nat) :
    refWalkAll s (n + 7) = (refWalkAll s n).add ⟨1, 5, 1, 1⟩ := by
  have h := refClassify_seven s n (refWalkAll s n)
  simp only [refWalkAll]
  exact h

/-- The reference walk over `7k + r` days splits into `k` full-week
contributions plus the walk over the `r` remaining days. -/
theorem refWalkAll_decomp (s : Int) (k r : Nat) :
    refWalkAll s (7 * k + r) =
      DayCounts.add ⟨(k : Int), 5 * (k : Int), (k : Int), (k : Int)⟩ (refWalkAll s r) := by
  induction k with
  | zero => ext <;> simp [DayCounts.add]
  | succ m ih =>
    have h : 7 * (m + 1) + r = (7 * m + r) + 7 := by ring
    rw [h, refWalkAll_add_seven, ih]
    ext <;> simp [DayCounts.add] <;> omega

/-- The closed-form counting equals the per-day reference walk for every
non-negative day count. -/
theorem calendarCounts_eq_ref (s : Int) (n : Nat) :
    calendarCounts s (n : Int) = refWalkAll s n := by
  have h1 : jsFloorDiv (n : Int) 7 = ((n / 7 : Nat) : Int) := by
    rw [jsFloorDiv_eq_ediv _ _ (by norm_num)]; omega
  have h2 : ((n : Int) % 7).toNat = n % 7 := by omega
  simp only [calendarCounts, h1]
  rw [h2, walkFrom_eq]
  have h3 : refWalkAll s n = refWalkAll s (7 * (n / 7) + n % 7) := by
    congr 1; omega
  rw [h3, refWalkAll_decomp]
  ext <;> simp [DayCounts.add] <;> omega

/-- Claim C2: for every start day-of-week and every `totalDays ≥ 0`, the
closed-form computation (full-week base counts plus the walk over the
`totalDays % 7` trailing days) yields exactly the same weekends, workDays,
mondays and fridays as the spec's reference implementation iterating over
every one of the `totalDays` days; in particular a range of exactly `7k`
days has `weekends = k`, `workDays = 5k`, `mondays = k`, `fridays = k` and
work hours `workDays * 8 = 40k`. -/
theorem calendarCounts_correct (s : Int) (hs0 : 0 ≤ s) (hs7 : s < 7) :
    (∀ n : Nat, calendarCounts s (n : Int) = refWalkAll s n) ∧
    (∀ k : Nat, calendarCounts s ((7 * k : Nat) : Int) =
        ⟨(k : Int), 5 * (k : Int), (k : Int), (k : Int)⟩ ∧
      (calendarCounts s ((7 * k : Nat) : Int)).workDays * 8 = 40 * (k : Int)) := by
  have h2 : ∀ k : Nat, refWalkAll s (7 * k) =
      DayCounts.mk (k : Int) (5 * (k : Int)) (k : Int) (k : Int) := by
    intro k
    have hd := refWalkAll_decomp s k 0
    simp only [Nat.add_zero] at hd
    rw [hd]
    ext <;> simp [DayCounts.add, refWalkAll]
  refine ⟨fun n => calendarCounts_eq_ref s n, fun k => ?_⟩
  have h := calendarCounts_eq_ref s (7 * k)
  rw [h, h2 k]
  exact ⟨rfl, by ring⟩

/-- Witness for C2: starting on a Wednesday (3), 10 days and a two-week
range agree with the reference walk and the `7k` formula. -/
theorem calendarCounts_correct_witness :
    calendarCounts 3 ((10 : Nat) : Int) = refWalkAll 3 10 ∧
    calendarCounts 3 (14 : Int) = ⟨2, 10, 2, 2⟩ :=
  ⟨(calendarCounts_correct 3 (by norm_num) (by norm_num)).1 10,
   by simpa using ((calendarCounts_correct 3 (by norm_num) (by norm_num)).2 2).1⟩

/-- The Calendar Metrics Engine's own day count (script.js line 160):
`Math.ceil((endDate - startDate) / oneDayMs)` over the day-floored
endpoints. -/
def engineTotalDays (now retirement : Int) : Int :=
  jsCeilDiv (dayFloor retirement - dayFloor now) oneDayMs

/-- The metrics record displayed by `updateFunMetrics`
(script.js lines 199-205), together with the engine's `totalDays`. -/
structure CalendarMetrics where
  totalDays : Int
  weekends : Int
  workDays : Int
  workHours : Int
  sleeps : Int
  sunrises : Int
  mondays : Int
  fridays : Int
  deriving DecidableEq, Repr

/-- The Calendar Metrics Engine `updateFunMetrics(now, retirement, days)`
(script.js lines 152-206).  `days` is the caller-supplied Duration Engine
value (line 122 passes `computeCountdown`'s `days`).  When `totalDays ≤ 0`
every displayed field is zeroed (lines 162-171); otherwise the closed-form
counts are used, `workHours = workDays * 8`, and `sleeps`/`sunrises` display
`days` and `days + 1` (lines 202-203). -/
def updateFunMetrics (now retirement days : Int) : CalendarMetrics :=
  let totalDays := engineTotalDays now retirement
  if totalDays ≤ 0 then ⟨0, 0, 0, 0, 0, 0, 0, 0⟩
  else
    let startDayOfWeek := getDay (dayFloor now)
    let c := calendarCounts startDayOfWeek totalDays
    ⟨totalDays, c.weekends, c.workDays, c.workDays * 8, days, days + 1,
     c.mondays, c.fridays⟩

/-- The driving loop's wiring (script.js line 122): `updateFunMetrics` is
called with the Duration Engine's `days`. -/
def countdownMetrics (now retirement : Int) : CalendarMetrics :=
  updateFunMetrics now retirement (computeCountdown now retirement).days

/-- Counterexample to claim C4: with `now` at 23:00 of epoch day 0 and the
target at 01:00 of day 1, the engine's own `totalDays` is 1 but the displayed
`sleeps` is the Duration Engine's `days = 0` (only 2 hours remain), so
`sleeps ≠ totalDays` (and `sunrises = 1 ≠ totalDays + 1 = 2`). -/
theorem countdownMetrics_sleeps_ne_totalDays :
    engineTotalDays 82800000 90000000 = 1 ∧
    (countdownMetrics 82800000 90000000).totalDays = 1 ∧
    (countdownMetrics 82800000 90000000).sleeps = 0 ∧
    (countdownMetrics 82800000 90000000).sleeps ≠
      (countdownMetrics 82800000 90000000).totalDays ∧
    (countdownMetrics 82800000 90000000).sunrises ≠
      (countdownMetrics 82800000 90000000).totalDays + 1 := by
  refine ⟨?_, ?_, ?_, ?_, ?_⟩ <;> decide

/-- Claim C4 as amended: in every computed CalendarMetrics with positive
engine day count, `sleeps` equals the caller-supplied Duration Engine `days`
value — not the engine's own `totalDays`, from which it can differ — and
`sunrises = days + 1`; and whenever `totalDays ≤ 0` every field of the
metrics is 0. -/
theorem updateFunMetrics_sleeps (now retirement days : Int) :
    (0 < engineTotalDays now retirement →
      (updateFunMetrics now retirement days).sleeps = days ∧
      (updateFunMetrics now retirement days).sunrises = days + 1 ∧
      (countdownMetrics now retirement).sleeps =
        (computeCountdown now retirement).days) ∧
    (engineTotalDays now retirement ≤ 0 →
      updateFunMetrics now retirement days = ⟨0, 0, 0, 0, 0, 0, 0, 0⟩) := by
  constructor
  · intro h
    have hne : ¬ engineTotalDays now retirement ≤ 0 := by omega
    refine ⟨?_, ?_, ?_⟩ <;>
      simp only [updateFunMetrics, countdownMetrics, if_neg hne]
  · intro h
    simp only [updateFunMetrics, if_pos h]

/-- Witness for the amended C4: for the concrete instants of the
counterexample the engine day count is positive and `sleeps`/`sunrises`
display the caller's 0 and 1. -/
theorem updateFunMetrics_sleeps_witness :
    (updateFunMetrics 82800000 90000000 0).sleeps = 0 ∧
    (updateFunMetrics 82800000 90000000 0).sunrises = 0 + 1 ∧
    (countdownMetrics 82800000 90000000).sleeps =
      (computeCountdown 82800000 90000000).days :=
  (updateFunMetrics_sleeps 82800000 90000000 0).1 (by decide)
